import Mathlib

/-!
Verification of the client-side behavior layer of the Surya Plaza Hotel
static website (src/assets/js/script.js, version 3.0, and the consolidated
main.js in src/unnamed/part_000).

Each JavaScript function relevant to the frozen claims is embedded as a
Lean definition over explicit state records.  DOM state (the data-theme
attribute on the document element, localStorage, class lists, inline
display styles, the lightbox image/caption elements) is represented by
record fields; event handlers become state-transition functions; an event
handler that would raise an uncaught exception (for example reading
item.href off undefined) is modelled as returning none.
-/

namespace SuryaPlaza

/-! Theme Preference Manager

State of the theme subsystem: the data-theme attribute on the document
root (none when the attribute was never set) and the value stored in
localStorage under the key "theme" (none when absent). -/

structure ThemeState where
  dataTheme : Option String
  stored : Option String
  deriving Repr, DecidableEq

/-- JavaScript truthiness test used by the source on values read from
localStorage: null (absent) and the empty string are falsy. -/
def strFalsy : Option String → Bool
  | none => true
  | some s => s = ""

/-- part_000 lines 73-77: returns the saved theme when it is truthy,
otherwise "dark" or "light" from the OS media query. -/
def getInitialTheme (saved : Option String) (prefersDark : Bool) : String :=
  if strFalsy saved then (if prefersDark then "dark" else "light")
  else saved.getD ""

/-- part_000 lines 68-71: applyTheme sets the data-theme attribute AND
persists the value to localStorage. -/
def applyTheme (t : String) (_s : ThemeState) : ThemeState :=
  ⟨some t, some t⟩

/-- part_000 line 79: initThemeManager applies the resolved initial
theme.  The saved value and the OS preference are read at call time. -/
def themeManagerInit (saved : Option String) (prefersDark : Bool) : ThemeState :=
  applyTheme (getInitialTheme saved prefersDark) ⟨none, saved⟩

/-- part_000 lines 87-91: the prefers-color-scheme change listener
applies the new OS value only when localStorage holds no truthy theme. -/
def osChangeHandler (osMatches : Bool) (s : ThemeState) : ThemeState :=
  if strFalsy s.stored then applyTheme (if osMatches then "dark" else "light") s
  else s

/-- Toggle click handler, part_000 lines 81-85 and script.js lines 38-45
(both variants are textually the same computation): read the current
data-theme attribute, flip dark to light and anything else to dark, set
the attribute and persist the new value. -/
def toggleClick (s : ThemeState) : ThemeState :=
  let newTheme := if s.dataTheme = some "dark" then "light" else "dark"
  ⟨some newTheme, some newTheme⟩

/-- script.js lines 29-36: the v3.0 initializer sets the data-theme
attribute from the saved theme or the OS preference but does NOT write
localStorage. -/
def themeToggleInitV3 (saved : Option String) (prefersDark : Bool) : ThemeState :=
  if saved = some "dark" ∨ (strFalsy saved ∧ prefersDark) then ⟨some "dark", saved⟩
  else ⟨some "light", saved⟩

end SuryaPlaza

namespace SuryaPlaza

/-! Gallery Filter + Lightbox

A gallery item, read off one .gallery-item anchor element: its href (the
full-size image URL), its data-caption and data-category attributes
(none when the attribute is absent), and its inline style.display value
(the empty string before any filter ran). -/

structure Item where
  href : String
  caption : Option String
  category : Option String
  display : String
  deriving Repr, DecidableEq

/-- An item counts as visible when its inline display style is not
"none" (script.js line 134 tests item.style.display !== "none"). -/
def itemVisible (it : Item) : Bool := it.display ≠ "none"

/-- Net effect of one filter click on the item list, script.js line 128:
display becomes "block" when the tag is the sentinel "all" or equals the
data-category of the item, else "none".  The part_000 handler
(lines 242-247) first sets display to "none" and re-shows matching items
from a 1ms timer; once those timers have fired the displays are the
same, so both variants settle to this list.  Items are mapped in place,
never dropped. -/
def applyFilter (filter : String) (items : List Item) : List Item :=
  items.map fun it =>
    { it with display := if filter = "all" ∨ it.category = some filter then "block" else "none" }

/-- allVisibleItems as computed by updateVisibleItems (script.js lines
133-135): the currently visible items, represented by their indices into
the fixed galleryItems node list so that DOM identity (indexOf) is
meaningful. -/
def visibleIndices (items : List Item) : List Nat :=
  (items.enum.filter fun p => itemVisible p.2).map Prod.fst

/-- JavaScript Array.prototype.indexOf: the position of the first
occurrence, or -1 when the element is absent. -/
def jsIndexOf (l : List Nat) (x : Nat) : Int :=
  if x ∈ l then (l.indexOf x : Int) else -1

/-- Closure state of initGallery (script.js lines 107-168): the item
node list with mutable display styles, the active filter button, the
allVisibleItems snapshot (as indices), the currentIndex cursor, and the
lightbox container, image and caption elements. -/
structure GalleryState where
  items : List Item
  activeFilter : Option String
  visibleIdx : List Nat
  currentIndex : Int
  lightboxActive : Bool
  lightboxSrc : String
  lightboxCaption : String
  deriving Repr, DecidableEq

/-- State right after initGallery ran: allVisibleItems = [] and
currentIndex = 0 (script.js lines 119-120); the lightbox starts without
the active class and with empty image and caption. -/
def galleryInit (items : List Item) : GalleryState :=
  { items := items, activeFilter := none, visibleIdx := [], currentIndex := 0,
    lightboxActive := false, lightboxSrc := "", lightboxCaption := "" }

/-- script.js lines 122-131: a click on the filter button with tag f
moves the exclusive active mark to it and re-styles every item.  The
allVisibleItems snapshot is NOT recomputed here. -/
def filterClick (f : String) (s : GalleryState) : GalleryState :=
  { s with activeFilter := some f, items := applyFilter f s.items }

/-- script.js lines 133-135. -/
def updateVisibleItems (s : GalleryState) : GalleryState :=
  { s with visibleIdx := visibleIndices s.items }

/-- script.js lines 137-143: set currentIndex, read the item at that
position of allVisibleItems, load its href and caption (the JS
item.dataset.caption || "" turns an absent caption into "") and add the
active class.  When the position is out of range (negative, or past the
end) the JS reads .href off undefined and the handler dies on an
uncaught TypeError: that aborted run is modelled as none. -/
def openLightbox (clickedIndex : Int) (s : GalleryState) : Option GalleryState :=
  if 0 ≤ clickedIndex then
    match s.visibleIdx.get? clickedIndex.toNat with
    | some j =>
      match s.items.get? j with
      | some it =>
        some { s with currentIndex := clickedIndex, lightboxSrc := it.href,
                      lightboxCaption := it.caption.getD "", lightboxActive := true }
      | none => none
    | none => none
  else none

/-- script.js line 145. -/
def closeLightbox (s : GalleryState) : GalleryState :=
  { s with lightboxActive := false }

/-- script.js line 146: openLightbox((currentIndex - 1 + allVisibleItems.length)
% allVisibleItems.length).  The JS % is the truncating remainder, Int.tmod;
with a zero length it yields NaN, allVisibleItems[NaN] is undefined and
reading .href throws, so that run is none. -/
def showPrev (s : GalleryState) : Option GalleryState :=
  let n : Int := s.visibleIdx.length
  if n = 0 then none
  else openLightbox ((s.currentIndex - 1 + n).tmod n) s

/-- script.js line 147, same conventions as showPrev. -/
def showNext (s : GalleryState) : Option GalleryState :=
  let n : Int := s.visibleIdx.length
  if n = 0 then none
  else openLightbox ((s.currentIndex + 1).tmod n) s

/-- script.js lines 149-155: a click on gallery item number i first
recomputes allVisibleItems from the current display styles, then opens
the lightbox at the indexOf position of that item in the fresh list. -/
def itemClick (i : Nat) (s : GalleryState) : Option GalleryState :=
  let s1 := updateVisibleItems s
  openLightbox (jsIndexOf s1.visibleIdx i) s1

/-- The three ways of closing the lightbox (script.js lines 157-167):
the close control, a click on the backdrop (only when the click target
is the lightbox container itself), and the Escape key (the keydown
handler runs only while the container has the active class). -/
inductive CloseTrigger where
  | closeClick
  | backdropClick (targetIsBackdrop : Bool)
  | escapeKey
  deriving Repr, DecidableEq

def handleCloseTrigger : CloseTrigger → GalleryState → GalleryState
  | CloseTrigger.closeClick, s => closeLightbox s
  | CloseTrigger.backdropClick onBackdrop, s => if onBackdrop then closeLightbox s else s
  | CloseTrigger.escapeKey, s => if s.lightboxActive then closeLightbox s else s

/-! Consolidated variant, part_000 initGalleryPage (lines 229-282)

Here the lightbox works over `images`, a list of (src, caption) pairs
precomputed over ALL gallery items at initialization (line 255), and the
click handler of item i captures i, its index in the full node list
(lines 267-269). -/

structure GalleryPageState where
  items : List Item
  activeFilter : Option String
  images : List (String × Option String)
  currentIndex : Int
  lightboxActive : Bool
  lightboxSrc : String
  lightboxCaption : Option String
  deriving Repr, DecidableEq

/-- part_000 lines 254-255. -/
def galleryPageInit (items : List Item) : GalleryPageState :=
  { items := items, activeFilter := none,
    images := items.map fun it => (it.href, it.caption),
    currentIndex := 0, lightboxActive := false,
    lightboxSrc := "", lightboxCaption := none }

/-- part_000 lines 237-249 (after the 1ms re-show timers fire). -/
def filterClickP (f : String) (s : GalleryPageState) : GalleryPageState :=
  { s with activeFilter := some f, items := applyFilter f s.items }

/-- part_000 lines 257-262: images[index] is read with no bounds check;
an out-of-range index dies reading .src off undefined, modelled none. -/
def openLightboxP (index : Int) (s : GalleryPageState) : Option GalleryPageState :=
  if 0 ≤ index then
    match s.images.get? index.toNat with
    | some img =>
      some { s with currentIndex := index, lightboxSrc := img.1,
                    lightboxCaption := img.2, lightboxActive := true }
    | none => none
  else none

/-- part_000 line 263. -/
def closeLightboxP (s : GalleryPageState) : GalleryPageState :=
  { s with lightboxActive := false }

/-- part_000 line 264. -/
def showPrevP (s : GalleryPageState) : Option GalleryPageState :=
  let n : Int := s.images.length
  if n = 0 then none
  else openLightboxP ((s.currentIndex - 1 + n).tmod n) s

/-- part_000 line 265. -/
def showNextP (s : GalleryPageState) : Option GalleryPageState :=
  let n : Int := s.images.length
  if n = 0 then none
  else openLightboxP ((s.currentIndex + 1).tmod n) s

/-- part_000 lines 267-269: the handler of item i opens at i itself, the
position of the item in the FULL node list fixed at initialization; no
visible-item list is consulted. -/
def itemClickP (i : Nat) (s : GalleryPageState) : Option GalleryPageState :=
  openLightboxP (i : Int) s

/-- Two sample gallery items used to evaluate the model on concrete
input: a rooms photo and a dining photo, both initially visible. -/
def roomsItem : Item := { href := "a.jpg", caption := some "A", category := some "rooms", display := "" }

def diningItem : Item := { href := "b.jpg", caption := some "B", category := some "dining", display := "" }

def sampleItems : List Item := [roomsItem, diningItem]

/-- A concrete reachable v3.0 gallery state: both sample items visible,
lightbox open on the second one. -/
def sampleGalleryOpen : GalleryState :=
  { items := sampleItems, activeFilter := none, visibleIdx := [0, 1], currentIndex := 1,
    lightboxActive := true, lightboxSrc := "b.jpg", lightboxCaption := "B" }

/-! Viewport Reveal Animator

Per-element state of the one-shot reveal observers (script.js lines
77-86, part_000 lines 110-119): whether the IntersectionObserver still
observes the element, and whether the element carries the is-visible
class. -/

structure ElemState where
  observed : Bool
  isVisibleClass : Bool
  deriving Repr, DecidableEq

/-- One intersection event delivered for the element, with its
isIntersecting flag.  The callback body (script.js lines 78-83 /
part_000 lines 111-116) adds the is-visible class and unobserves the
target when the entry is intersecting.  The host delivers entries only
for targets the observer still observes, so an event acts only while
observed remains true; nothing in either callback ever removes the
class. -/
def revealStep (s : ElemState) (isIntersecting : Bool) : ElemState :=
  if s.observed && isIntersecting then { observed := false, isVisibleClass := true }
  else s

/-- A whole page-load worth of intersection events for one element,
processed in delivery order. -/
def revealRun (s : ElemState) (events : List Bool) : ElemState :=
  events.foldl revealStep s

/-- How many events of the sequence newly add the is-visible class. -/
def revealAddCount : ElemState → List Bool → Nat
  | _, [] => 0
  | s, b :: rest =>
    (if (revealStep s b).isVisibleClass && !s.isVisibleClass then 1 else 0) +
      revealAddCount (revealStep s b) rest

/-- An element right after observe(el): observed, class not yet set. -/
def initialElem : ElemState := { observed := true, isVisibleClass := false }

/-- A revealed element: class set, no longer observed. -/
def revealedElem : ElemState := { observed := false, isVisibleClass := true }

/-! Scroll-Spy Navigation Highlighter

Nav links carry an href and the presence of the active class; an
intersection entry carries the id of its target section and the
isIntersecting flag (script.js lines 173-218, part_000 lines 203-224). -/

structure NavLink where
  href : String
  active : Bool
  deriving Repr, DecidableEq

structure SpyEntry where
  targetId : String
  isIntersecting : Bool
  deriving Repr, DecidableEq

/-- Processing of a single entry inside the observer callback: when the
entry is intersecting, every link of the instance gets
classList.toggle("active", href = "#" + id) (part_000 lines 214-221 and
script.js lines 182-189; the v2.1 remove-then-conditionally-add variant
computes the same class states); a non-intersecting entry changes
nothing. -/
def spyProcessEntry (links : List NavLink) (e : SpyEntry) : List NavLink :=
  if e.isIntersecting then
    links.map fun l => { l with active := decide (l.href = "#" ++ e.targetId) }
  else links

/-- One whole callback batch: entries.forEach in delivery order. -/
def spyCallback (links : List NavLink) (entries : List SpyEntry) : List NavLink :=
  entries.foldl spyProcessEntry links

/-- The id of the last intersecting entry of the batch, when any. -/
def lastIntersectingId (entries : List SpyEntry) : Option String :=
  ((entries.filter fun e => e.isIntersecting).getLast?).map SpyEntry.targetId

/-- Demo scroll-spy instance with two sections a, b and matching links. -/
def demoLinks : List NavLink := [{ href := "#a", active := false }, { href := "#b", active := false }]

def demoEntries : List SpyEntry :=
  [{ targetId := "a", isIntersecting := true }, { targetId := "b", isIntersecting := true }]

/-- C4: getInitialTheme is a function of (stored preference, OS
preference): over stored ranging over absent, "light" and "dark" and each OS
preference, it returns the stored value when present, otherwise the
OS-derived value ("dark" when the OS prefers dark, else "light"). -/
theorem c4_getInitialTheme_table (os : Bool) :
    getInitialTheme none os = (if os then "dark" else "light") ∧
    getInitialTheme (some "light") os = "light" ∧
    getInitialTheme (some "dark") os = "dark" := by
  cases os <;> exact ⟨rfl, rfl, rfl⟩

/-- C1 (code bug): after initialization that began with no stored
preference and a light OS preference, a subsequent OS change event to
dark leaves both the applied theme and the stored value at "light" —
initThemeManager funnels the OS-derived initial theme through applyTheme,
which persists it, so the guard of the OS-change listener is false from
then on and the listener never updates the theme; the claim requires the
applied theme to follow the OS change. -/
theorem c1_os_change_dead_after_init :
    themeManagerInit none false = ⟨some "light", some "light"⟩ ∧
    osChangeHandler true (themeManagerInit none false) = ⟨some "light", some "light"⟩ ∧
    (osChangeHandler true (themeManagerInit none false)).dataTheme ≠ some "dark" := by
  refine ⟨rfl, rfl, ?_⟩
  decide

/-- C9 counterexample: in the v3.0 variant a fresh visitor with no stored
preference and a light OS gets applied theme "light" with localStorage
still absent; two toggle activations leave the applied theme restored but
the stored value is now "light", not absent — the persisted stored value
is not restored to what it was before the first activation. -/
theorem c9_double_toggle_not_identity_on_storage :
    (toggleClick (toggleClick (themeToggleInitV3 none false))).dataTheme
      = (themeToggleInitV3 none false).dataTheme ∧
    (toggleClick (toggleClick (themeToggleInitV3 none false))).stored = some "light" ∧
    (themeToggleInitV3 none false).stored = none := by
  exact ⟨rfl, rfl, rfl⟩

/-- C9 amended: for any applied theme t, either "light" or "dark", one
activation flips the applied theme and persists the flipped value; two
activations restore the data-theme attribute and set the stored value to
t, so the stored value is restored exactly when it already equalled the
applied theme (which always holds after the consolidated initThemeManager
has run, since every write there goes through applyTheme). -/
theorem c9_toggle_flip_and_double (s : ThemeState) (t : String)
    (hd : s.dataTheme = some t) (ht : t = "light" ∨ t = "dark") :
    (toggleClick s).dataTheme = some (if t = "dark" then "light" else "dark") ∧
    (toggleClick s).stored = some (if t = "dark" then "light" else "dark") ∧
    (toggleClick (toggleClick s)).dataTheme = s.dataTheme ∧
    (toggleClick (toggleClick s)).stored = some t ∧
    (s.stored = some t → (toggleClick (toggleClick s)).stored = s.stored) := by
  rcases ht with h | h <;> subst h <;>
    simp [toggleClick, hd] <;> intro h2 <;> simp [h2]

/-- C9 witness: the amended toggle theorem instantiated at the state with
applied theme "light" and stored value "light". -/
theorem c9_toggle_flip_and_double_witness :
    (toggleClick ⟨some "light", some "light"⟩).dataTheme = some "dark" ∧
    (toggleClick (toggleClick (⟨some "light", some "light"⟩ : ThemeState))).stored
      = some "light" := by
  have h := c9_toggle_flip_and_double ⟨some "light", some "light"⟩ "light" rfl (Or.inl rfl)
  exact ⟨by simpa using h.1, by simpa using h.2.2.2.1⟩

/-- C2 (code bug): with the visible-item list empty — the state right
after initGallery, before any item was ever clicked — both lightbox
navigation handlers compute an index modulo zero (NaN in JS), read
allVisibleItems[NaN] = undefined and die on an uncaught TypeError
instead of being rejected or a no-op: the run is none, not
some (galleryInit sampleItems). -/
theorem c2_nav_on_empty_list_crashes :
    showNext (galleryInit sampleItems) = none ∧
    showPrev (galleryInit sampleItems) = none ∧
    showNext (galleryInit sampleItems) ≠ some (galleryInit sampleItems) := by
  exact ⟨rfl, rfl, by decide⟩

/-- C10: every close trigger (close control, backdrop click, Escape)
leaves the item list, the active filter selection, the allVisibleItems
snapshot, the cursor, the displayed image source and the caption exactly
as they were; the handler either clears the active marker or (for the
guarded triggers when their condition fails) changes nothing at all, and
closeLightbox itself only rewrites lightboxActive. -/
theorem c10_close_only_clears_active (trig : CloseTrigger) (s : GalleryState) :
    ((handleCloseTrigger trig s).items = s.items ∧
     (handleCloseTrigger trig s).activeFilter = s.activeFilter ∧
     (handleCloseTrigger trig s).visibleIdx = s.visibleIdx ∧
     (handleCloseTrigger trig s).currentIndex = s.currentIndex ∧
     (handleCloseTrigger trig s).lightboxSrc = s.lightboxSrc ∧
     (handleCloseTrigger trig s).lightboxCaption = s.lightboxCaption) ∧
    ((handleCloseTrigger trig s).lightboxActive = false ∨ handleCloseTrigger trig s = s) ∧
    closeLightbox s = { s with lightboxActive := false } := by
  cases trig with
  | closeClick => exact ⟨⟨rfl, rfl, rfl, rfl, rfl, rfl⟩, Or.inl rfl, rfl⟩
  | backdropClick onBackdrop =>
      cases onBackdrop with
      | false => exact ⟨⟨rfl, rfl, rfl, rfl, rfl, rfl⟩, Or.inr rfl, rfl⟩
      | true => exact ⟨⟨rfl, rfl, rfl, rfl, rfl, rfl⟩, Or.inl rfl, rfl⟩
  | escapeKey =>
      by_cases h : s.lightboxActive
      · refine ⟨?_, Or.inl ?_, rfl⟩ <;> simp [handleCloseTrigger, closeLightbox, h]
      · refine ⟨?_, Or.inr ?_, rfl⟩ <;> simp [handleCloseTrigger, h]

/-- An index is in the visible-item list exactly when the item there is
currently visible; sufficiency direction used below. -/
theorem mem_visibleIndices {items : List Item} {i : Nat} {it : Item}
    (h : items.get? i = some it) (hv : itemVisible it = true) :
    i ∈ visibleIndices items := by
  have h' : items[i]? = some it := by rwa [← List.get?_eq_getElem?]
  refine List.mem_map.2 ⟨(i, it), List.mem_filter.2 ⟨?_, hv⟩, rfl⟩
  exact List.mk_mem_enum_iff_getElem?.2 h'

/-- openLightbox succeeds whenever the requested position is in range of
allVisibleItems and the stored indices point into the item list, and the
resulting state carries the requested cursor with the lightbox active. -/
theorem openLightbox_spec (s : GalleryState) (k : Int)
    (h0 : 0 ≤ k) (h1 : k.toNat < s.visibleIdx.length)
    (hvalid : ∀ j ∈ s.visibleIdx, j < s.items.length) :
    ∃ s1, openLightbox k s = some s1 ∧ s1.currentIndex = k ∧ s1.lightboxActive = true := by
  obtain ⟨j, hj⟩ : ∃ j, s.visibleIdx.get? k.toNat = some j :=
    ⟨_, List.get?_eq_get h1⟩
  have hjmem : j ∈ s.visibleIdx := by
    obtain ⟨hh, hget⟩ := List.get?_eq_some.1 hj
    exact hget ▸ List.get_mem _ _ _
  obtain ⟨it, hit⟩ : ∃ it, s.items.get? j = some it :=
    ⟨_, List.get?_eq_get (hvalid j hjmem)⟩
  have hopen : openLightbox k s =
      some { s with currentIndex := k, lightboxSrc := it.href,
                    lightboxCaption := it.caption.getD "", lightboxActive := true } := by
    simp only [openLightbox, if_pos h0, hj, hit]
  exact ⟨_, hopen, rfl, rfl⟩

/-- C5: for every visible list of length N greater than 0 and every
cursor i with 0 ≤ i < N, showNext succeeds and sets the cursor to
(i + 1) mod N and showPrev succeeds and sets it to (i - 1 + N) mod N; in
particular for N = 1 both leave the cursor at i. -/
theorem c5_wraparound (s : GalleryState) (N : Nat) (hN : 1 ≤ N)
    (hlen : s.visibleIdx.length = N)
    (hvalid : ∀ j ∈ s.visibleIdx, j < s.items.length)
    (hi0 : 0 ≤ s.currentIndex) (hiN : s.currentIndex < (N : Int)) :
    (showNext s).map GalleryState.currentIndex = some ((s.currentIndex + 1) % (N : Int)) ∧
    (showPrev s).map GalleryState.currentIndex =
      some ((s.currentIndex - 1 + (N : Int)) % (N : Int)) ∧
    (N = 1 →
      (showNext s).map GalleryState.currentIndex = some s.currentIndex ∧
      (showPrev s).map GalleryState.currentIndex = some s.currentIndex) := by
  have hNpos : (0 : Int) < (N : Int) := by exact_mod_cast hN
  have hne : (N : Int) ≠ 0 := ne_of_gt hNpos
  have hnexteq : (s.currentIndex + 1).tmod (N : Int) = (s.currentIndex + 1) % (N : Int) :=
    Int.tmod_eq_emod (by omega) (le_of_lt hNpos)
  have hpreveq : (s.currentIndex - 1 + (N : Int)).tmod (N : Int)
      = (s.currentIndex - 1 + (N : Int)) % (N : Int) :=
    Int.tmod_eq_emod (by omega) (le_of_lt hNpos)
  have hnext : (showNext s).map GalleryState.currentIndex
      = some ((s.currentIndex + 1) % (N : Int)) := by
    have h0 : 0 ≤ (s.currentIndex + 1) % (N : Int) := Int.emod_nonneg _ hne
    have hlt : (s.currentIndex + 1) % (N : Int) < (N : Int) := Int.emod_lt_of_pos _ hNpos
    have htn : ((s.currentIndex + 1) % (N : Int)).toNat < s.visibleIdx.length := by
      rw [hlen]; exact (Int.toNat_lt h0).2 hlt
    obtain ⟨s1, hopen, hcur, _⟩ := openLightbox_spec s _ h0 htn hvalid
    have : showNext s = some s1 := by
      simp only [showNext, hlen, hnexteq]
      rw [if_neg hne]
      exact hopen
    rw [this, Option.map_some']
    exact congrArg some hcur
  have hprev : (showPrev s).map GalleryState.currentIndex
      = some ((s.currentIndex - 1 + (N : Int)) % (N : Int)) := by
    have h0 : 0 ≤ (s.currentIndex - 1 + (N : Int)) % (N : Int) := Int.emod_nonneg _ hne
    have hlt : (s.currentIndex - 1 + (N : Int)) % (N : Int) < (N : Int) :=
      Int.emod_lt_of_pos _ hNpos
    have htn : ((s.currentIndex - 1 + (N : Int)) % (N : Int)).toNat < s.visibleIdx.length := by
      rw [hlen]; exact (Int.toNat_lt h0).2 hlt
    obtain ⟨s2, hopen, hcur, _⟩ := openLightbox_spec s _ h0 htn hvalid
    have : showPrev s = some s2 := by
      simp only [showPrev, hlen, hpreveq]
      rw [if_neg hne]
      exact hopen
    rw [this, Option.map_some']
    exact congrArg some hcur
  refine ⟨hnext, hprev, fun h1 => ⟨?_, ?_⟩⟩
  · rw [hnext]
    have hz : s.currentIndex = 0 := by
      subst h1
      omega
    subst h1
    simp [hz]
  · rw [hprev]
    have hz : s.currentIndex = 0 := by
      subst h1
      omega
    subst h1
    simp [hz]

/-- C5 witness: the wrap-around theorem applied to the concrete open
gallery state with two visible items and cursor 1. -/
theorem c5_wraparound_witness :
    (showNext sampleGalleryOpen).map GalleryState.currentIndex
      = some ((sampleGalleryOpen.currentIndex + 1) % ((2 : Nat) : Int)) ∧
    (showPrev sampleGalleryOpen).map GalleryState.currentIndex
      = some ((sampleGalleryOpen.currentIndex - 1 + ((2 : Nat) : Int)) % ((2 : Nat) : Int)) :=
  ⟨(c5_wraparound sampleGalleryOpen 2 (by decide) (by decide) (by decide)
      (by decide) (by decide)).1,
   (c5_wraparound sampleGalleryOpen 2 (by decide) (by decide) (by decide)
      (by decide) (by decide)).2.1⟩

/-- C6: after the filter control with tag T is clicked, the item at any
position i keeps its href, caption and category (items are re-styled in
place, never removed, and the list length is unchanged), carries the
exclusive active mark on T, and is visible exactly when T is the
sentinel "all" or equals its category. -/
theorem c6_filter_visibility (T : String) (s : GalleryState) (i : Nat) (it : Item)
    (h : s.items.get? i = some it) :
    (filterClick T s).items.length = s.items.length ∧
    (filterClick T s).activeFilter = some T ∧
    ((filterClick T s).items.get? i).map Item.href = some it.href ∧
    ((filterClick T s).items.get? i).map Item.caption = some it.caption ∧
    ((filterClick T s).items.get? i).map Item.category = some it.category ∧
    (((filterClick T s).items.get? i).map itemVisible = some true ↔
      (T = "all" ∨ it.category = some T)) := by
  have hmap : (filterClick T s).items.get? i =
      some { it with display := if T = "all" ∨ it.category = some T then "block" else "none" } := by
    simp only [filterClick, applyFilter, List.get?_map, h, Option.map_some']
  refine ⟨by simp [filterClick, applyFilter], rfl, ?_, ?_, ?_, ?_⟩
  · rw [hmap]; rfl
  · rw [hmap]; rfl
  · rw [hmap]; rfl
  · rw [hmap]
    by_cases hc : T = "all" ∨ it.category = some T
    · simp [itemVisible, hc]
    · simp [itemVisible, hc]

/-- C6 witness: the filter theorem applied at tag "dining" and the
sample dining item, position 1 of the freshly initialized gallery. -/
theorem c6_filter_visibility_witness :
    (filterClick "dining" (galleryInit sampleItems)).items.length
      = (galleryInit sampleItems).items.length ∧
    (((filterClick "dining" (galleryInit sampleItems)).items.get? 1).map itemVisible
      = some true ↔ ("dining" = "all" ∨ diningItem.category = some "dining")) := by
  have hh := c6_filter_visibility "dining" (galleryInit sampleItems) 1 diningItem (by decide)
  exact ⟨hh.1, hh.2.2.2.2.2⟩

/-- C3 counterexample: in the consolidated initGalleryPage, with the two
sample items and the "dining" filter active, only item 1 is visible (the
visible-index list is [1], so the clicked item occupies position 0 of
the currently visible list), yet clicking it sets the cursor to 1, its
position in the FULL precomputed list; a following next command then
displays a.jpg, the image of item 0, which the active filter hides —
so the cursor is not the position in the recomputed visible list and
prev/next do not cycle only through currently visible items. -/
theorem c3_full_list_cursor_counterexample :
    visibleIndices (filterClickP "dining" (galleryPageInit sampleItems)).items = [1] ∧
    (itemClickP 1 (filterClickP "dining" (galleryPageInit sampleItems))).map
      GalleryPageState.currentIndex = some 1 ∧
    ((itemClickP 1 (filterClickP "dining" (galleryPageInit sampleItems))).bind showNextP).map
      GalleryPageState.lightboxSrc = some "a.jpg" ∧
    ((filterClickP "dining" (galleryPageInit sampleItems)).items.get? 0).map itemVisible
      = some false := by
  exact ⟨rfl, rfl, rfl, rfl⟩

/-- C3 amended: in the v3.0 initGallery, clicking a currently visible
item recomputes the visible list from the filter state at open time,
sets the cursor to the position of that item in the fresh list, loads
its image and caption and activates the lightbox; in the consolidated
initGalleryPage, the cursor is instead the index of the clicked item in
the full gallery list precomputed at initialization — its own image and
caption are still loaded and the lightbox activated, but prev/next then
wrap over the full list (length = the number of ALL items, hidden ones
included). -/
theorem c3_amended_open_behavior :
    (∀ (s : GalleryState) (i : Nat) (it : Item),
      s.items.get? i = some it → itemVisible it = true →
      ∃ s1, itemClick i s = some s1 ∧
        s1.visibleIdx = visibleIndices s.items ∧
        s1.currentIndex = ((visibleIndices s.items).indexOf i : Int) ∧
        s1.visibleIdx.get? s1.currentIndex.toNat = some i ∧
        s1.lightboxSrc = it.href ∧
        s1.lightboxCaption = it.caption.getD "" ∧
        s1.lightboxActive = true) ∧
    (∀ (items : List Item) (f : String) (i : Nat) (it : Item),
      items.get? i = some it →
      ∃ s2, itemClickP i (filterClickP f (galleryPageInit items)) = some s2 ∧
        s2.currentIndex = (i : Int) ∧
        s2.lightboxSrc = it.href ∧
        s2.lightboxCaption = it.caption ∧
        s2.lightboxActive = true ∧
        s2.images.length = items.length) := by
  constructor
  · intro s i it h hv
    have hmem : i ∈ visibleIndices s.items := mem_visibleIndices h hv
    have hgetIdx : (visibleIndices s.items).get? ((visibleIndices s.items).indexOf i)
        = some i := List.indexOf_get? hmem
    have hjs : jsIndexOf (visibleIndices s.items) i
        = ((visibleIndices s.items).indexOf i : Int) := by
      simp [jsIndexOf, hmem]
    have hopen : itemClick i s =
        some { s with visibleIdx := visibleIndices s.items,
                      currentIndex := ((visibleIndices s.items).indexOf i : Int),
                      lightboxSrc := it.href, lightboxCaption := it.caption.getD "",
                      lightboxActive := true } := by
      simp only [itemClick, updateVisibleItems, hjs, openLightbox,
        if_pos (Int.ofNat_nonneg _), Int.toNat_ofNat, hgetIdx, h]
    refine ⟨_, hopen, rfl, rfl, ?_, rfl, rfl, rfl⟩
    simpa using hgetIdx
  · intro items f i it h
    have himg : (filterClickP f (galleryPageInit items)).images.get? i
        = some (it.href, it.caption) := by
      simp only [filterClickP, galleryPageInit, List.get?_map, h, Option.map_some']
    have hopen : itemClickP i (filterClickP f (galleryPageInit items)) =
        some { filterClickP f (galleryPageInit items) with
               currentIndex := (i : Int), lightboxSrc := it.href,
               lightboxCaption := it.caption, lightboxActive := true } := by
      simp only [itemClickP, openLightboxP, if_pos (Int.ofNat_nonneg i),
        Int.toNat_ofNat, himg]
    refine ⟨_, hopen, rfl, rfl, rfl, rfl, ?_⟩
    simp [filterClickP, galleryPageInit]

/-- C3 witness: the amended theorem instantiated on the sample gallery
after the "dining" filter: in the v3.0 variant the clicked visible item
gets cursor 0 (its position among visible items), in the consolidated
variant it gets cursor 1 (its position among all items). -/
theorem c3_amended_open_behavior_witness :
    (itemClick 1 (filterClick "dining" (galleryInit sampleItems))).map
      GalleryState.currentIndex = some 0 ∧
    (itemClickP 1 (filterClickP "dining" (galleryPageInit sampleItems))).map
      GalleryPageState.currentIndex = some 1 := by
  obtain ⟨s1, h1, hvis1, hcur1, _, _, _, _⟩ :=
    c3_amended_open_behavior.1 (filterClick "dining" (galleryInit sampleItems)) 1
      { diningItem with display := "block" } (by decide) (by decide)
  obtain ⟨s2, h2, hcur2, _, _, _, _⟩ :=
    c3_amended_open_behavior.2 sampleItems "dining" 1 diningItem (by decide)
  constructor
  · rw [h1, Option.map_some']
    rw [hcur1]
    decide
  · rw [h2, Option.map_some']
    rw [hcur2]
    rfl

/-- Events do nothing to an element the observer no longer observes. -/
theorem revealStep_unobserved {s : ElemState} (h : s.observed = false) (b : Bool) :
    revealStep s b = s := by
  simp [revealStep, h]

/-- From an unobserved element no event ever adds the class. -/
theorem revealAddCount_unobserved (events : List Bool) (s : ElemState)
    (h : s.observed = false) : revealAddCount s events = 0 := by
  induction events with
  | nil => rfl
  | cons b rest ih =>
    have hs := revealStep_unobserved h b
    simp [revealAddCount, hs, ih]

/-- C7: across every sequence of intersection events in one page load,
the is-visible class is added to an observed element at most once; the
revealed-and-unobserved state absorbs every further event, and a run
that has reached it stays there under any continuation — the revealed
state is terminal and never reverts. -/
theorem c7_reveal_one_shot (events pre post : List Bool) :
    revealAddCount initialElem events ≤ 1 ∧
    revealRun revealedElem events = revealedElem ∧
    (revealRun initialElem pre = revealedElem →
      revealRun initialElem (pre ++ post) = revealedElem) := by
  have hfix : ∀ evs : List Bool, revealRun revealedElem evs = revealedElem := by
    intro evs
    induction evs with
    | nil => rfl
    | cons b rest ih =>
      have hs : revealStep revealedElem b = revealedElem := revealStep_unobserved rfl b
      calc revealRun revealedElem (b :: rest)
          = revealRun (revealStep revealedElem b) rest := rfl
        _ = revealRun revealedElem rest := by rw [hs]
        _ = revealedElem := ih
  have hcount : ∀ evs : List Bool, revealAddCount initialElem evs ≤ 1 := by
    intro evs
    induction evs with
    | nil => simp [revealAddCount]
    | cons b rest ih =>
      cases b with
      | false =>
        have hs : revealStep initialElem false = initialElem := rfl
        simpa [revealAddCount, hs] using ih
      | true =>
        have h0 : revealAddCount revealedElem rest = 0 :=
          revealAddCount_unobserved rest revealedElem rfl
        calc revealAddCount initialElem (true :: rest)
            = 1 + revealAddCount revealedElem rest := rfl
          _ = 1 := by rw [h0]
          _ ≤ 1 := le_refl 1
  refine ⟨hcount events, hfix events, fun hpre => ?_⟩
  have hsplit : revealRun initialElem (pre ++ post)
      = revealRun (revealRun initialElem pre) post := by
    simp [revealRun, List.foldl_append]
  rw [hsplit, hpre]
  exact hfix post

/-- C7 witness: the one-shot theorem at a concrete event sequence, with
the terminality conjunct applied after the reveal at the first event. -/
theorem c7_reveal_one_shot_witness :
    revealAddCount initialElem [true, true, false] ≤ 1 ∧
    revealRun initialElem ([true] ++ [false, true]) = revealedElem := by
  have h := c7_reveal_one_shot [true, true, false] [true] [false, true]
  exact ⟨h.1, h.2.2 (by decide)⟩

/-- A batch with no intersecting entry changes no link. -/
theorem spyCallback_no_intersecting (links : List NavLink) (entries : List SpyEntry)
    (h : ∀ e ∈ entries, e.isIntersecting = false) : spyCallback links entries = links := by
  induction entries generalizing links with
  | nil => rfl
  | cons e rest ih =>
    have he : e.isIntersecting = false := h e (List.mem_cons_self e rest)
    have hrest : ∀ e2 ∈ rest, e2.isIntersecting = false :=
      fun e2 h2 => h e2 (List.mem_cons_of_mem e h2)
    calc spyCallback links (e :: rest)
        = spyCallback (spyProcessEntry links e) rest := rfl
      _ = spyCallback links rest := by rw [show spyProcessEntry links e = links by simp [spyProcessEntry, he]]
      _ = links := ih links hrest

/-- After a batch whose last intersecting entry targets section id k,
every link of the instance is active exactly when its href is "#" + k. -/
theorem spyCallback_active_last :
    ∀ (entries : List SpyEntry) (links : List NavLink) (k : String),
      lastIntersectingId entries = some k →
      ∀ l ∈ spyCallback links entries, l.active = decide (l.href = "#" ++ k) := by
  intro entries
  induction entries with
  | nil => intro links k h; simp [lastIntersectingId] at h
  | cons e rest ih =>
    intro links k h
    by_cases hrest : (rest.filter fun e2 => e2.isIntersecting) = []
    · have hnone : ∀ e2 ∈ rest, e2.isIntersecting = false := by
        intro e2 h2
        have := List.filter_eq_nil_iff.1 hrest e2 h2
        simpa using this
      cases he : e.isIntersecting with
      | false =>
        exfalso
        have hnone2 : lastIntersectingId (e :: rest) = none := by
          simp [lastIntersectingId, List.filter_cons, he, hrest]
        rw [hnone2] at h
        exact Option.noConfusion h
      | true =>
        have hk : k = e.targetId := by
          have hsome : lastIntersectingId (e :: rest) = some e.targetId := by
            simp [lastIntersectingId, List.filter_cons, he, hrest]
          rw [hsome] at h
          exact (Option.some.inj h).symm
        have hcb : spyCallback links (e :: rest) = spyProcessEntry links e :=
          spyCallback_no_intersecting (spyProcessEntry links e) rest hnone
        rw [hcb]
        intro l hl
        subst hk
        simp only [spyProcessEntry, he, if_true] at hl
        obtain ⟨l0, hl0, rfl⟩ := List.mem_map.1 hl
        rfl
    · have hlast : lastIntersectingId (e :: rest) = lastIntersectingId rest := by
        obtain ⟨c, t, hct⟩ : ∃ c t, (rest.filter fun e2 => e2.isIntersecting) = c :: t := by
          cases hr : (rest.filter fun e2 => e2.isIntersecting) with
          | nil => exact absurd hr hrest
          | cons c t => exact ⟨c, t, rfl⟩
        cases he : e.isIntersecting with
        | false => simp [lastIntersectingId, List.filter_cons, he]
        | true => simp [lastIntersectingId, List.filter_cons, he, hct]
      rw [hlast] at h
      intro l hl
      exact ih (spyProcessEntry links e) k h l hl

/-- Batches never change the hrefs or the number of links. -/
theorem spyCallback_hrefs (links : List NavLink) (entries : List SpyEntry) :
    (spyCallback links entries).map NavLink.href = links.map NavLink.href := by
  induction entries generalizing links with
  | nil => rfl
  | cons e rest ih =>
    calc (spyCallback links (e :: rest)).map NavLink.href
        = (spyCallback (spyProcessEntry links e) rest).map NavLink.href := rfl
      _ = (spyProcessEntry links e).map NavLink.href := ih _
      _ = links.map NavLink.href := by
          cases he : e.isIntersecting with
          | false => simp [spyProcessEntry, he]
          | true => simp [spyProcessEntry, he, List.map_map]

/-- When the hrefs are pairwise distinct and exactly the links whose
href is the target are active, at most one link is active. -/
theorem countP_active_le_one (res : List NavLink) (target : String)
    (hres : ∀ l ∈ res, l.active = decide (l.href = target))
    (hnd : (res.map NavLink.href).Nodup) :
    res.countP (fun l => l.active) ≤ 1 := by
  induction res with
  | nil => simp
  | cons l t ih =>
    have hl := hres l (List.mem_cons_self l t)
    have ht : ∀ l2 ∈ t, l2.active = decide (l2.href = target) :=
      fun l2 h2 => hres l2 (List.mem_cons_of_mem l h2)
    have hnd2 : l.href ∉ t.map NavLink.href ∧ (t.map NavLink.href).Nodup := by
      rw [List.map_cons] at hnd
      exact List.nodup_cons.1 hnd
    cases hla : l.active with
    | false =>
      rw [List.countP_cons_of_neg _ _ (by simp [hla])]
      exact ih ht hnd2.2
    | true =>
      have hhl : l.href = target := by
        rw [hla] at hl
        exact of_decide_eq_true hl.symm
      have hzero : t.countP (fun l2 => l2.active) = 0 := by
        rw [List.countP_eq_zero]
        intro l2 h2
        rw [ht l2 h2]
        simp only [decide_eq_true_eq]
        intro hc
        exact hnd2.1 (hhl ▸ hc ▸ List.mem_map_of_mem NavLink.href h2)
      rw [List.countP_cons_of_pos _ _ (by simp [hla]), hzero]

/-- C8: for a scroll-spy instance, after a callback batch whose last
intersecting entry is the section with id k, a link is active exactly
when its href is the fragment "#" + k — so the link of that section is
active and every other link is not; and with pairwise distinct link
hrefs at most one link of the instance is ever active after the batch. -/
theorem c8_scrollspy_last_wins (links : List NavLink) (entries : List SpyEntry) (k : String)
    (h : lastIntersectingId entries = some k) :
    (∀ l ∈ spyCallback links entries, (l.active = true ↔ l.href = "#" ++ k)) ∧
    ((links.map NavLink.href).Nodup →
      (spyCallback links entries).countP (fun l => l.active) ≤ 1) := by
  have hact := spyCallback_active_last entries links k h
  constructor
  · intro l hl
    rw [hact l hl]
    simp
  · intro hnd
    rw [← spyCallback_hrefs links entries] at hnd
    exact countP_active_le_one _ _ hact hnd

/-- C8 witness: the scroll-spy theorem on the demo instance (sections a
and b, both intersecting, b processed last): the batch leaves at most
one active link. -/
theorem c8_scrollspy_last_wins_witness :
    (spyCallback demoLinks demoEntries).countP (fun l => l.active) ≤ 1 :=
  (c8_scrollspy_last_wins demoLinks demoEntries "b" (by decide)).2 (by decide)

end SuryaPlaza
